import Mathlib

/-
Verification of the shodan API client binding.

The development shallowly embeds the two source files of the repository:
`routes/routes.go` (the route table: path templates and origin base URLs)
and `methods.go` (the per-endpoint methods of the `Client` type).

The request-dispatch layer (`Client.get`, `Client.request`,
`Client.requestExploits`) lives outside the embedded sources; following the
specification it is modelled as an opaque one-shot transport oracle: each
invocation of the dispatch layer is recorded as a `DispatchCall` event, and
the oracle supplies the outcome (a classified dispatch error, or a decoded
value that the dispatcher writes into the decode destination exactly once,
on success).

Go semantics used by the embedding:
- `len` of a string counts UTF-8 bytes (`goLen`);
- `strings.Join(xs, ",")` is `String.intercalate "," xs`;
- a named return value starts at the zero value of its type (`default`);
- passing `result` (rather than `&result`) as a decode destination means
  the callee writes into a copy, so the caller's variable is unchanged.
-/

/-- Go `len` of a string: the number of UTF-8 bytes. -/
def goLen (s : String) : Nat := s.data.foldl (fun n c => n + c.utf8Size) 0

namespace routes

def ApiRoot : String := "https://api.shodan.io"

def ApiExploits : String := "https://exploits.shodan.io/api"

def ApiStream : String := "https://stream.shodan.io"

def Search : String := "/search"

def Count : String := "/count"

def ShodanHostView : String := "/shodan/host/%s"

def ShodanHostCount : String := "/shodan/host/count"

def ShodanHostSearch : String := "/shodan/host/search"

def ShodanHostSearchTokens : String := "/shodan/host/search/tokens"

def ShodanPorts : String := "/shodan/ports"

def ShodanServices : String := "/shodan/services"

def ShodanProtocols : String := "/shodan/protocols"

def ShodanScan : String := "/shodan/scan"

def ShodanScans : String := "/shodan/scans"

def ShodanScanView : String := "/shodan/scan/%s"

def ShodanScanInternet : String := "/shodan/scan/internet"

def ShodanQuery : String := "/shodan/query"

def ShodanQuerySearch : String := "/shodan/query/search"

def ShodanQueryTags : String := "/shodan/query/tags"

def ShodanAlert : String := "/shodan/alert"

def ShodanAlertInfo : String := "/shodan/alert/info"

def ShodanAlertId : String := "/shodan/alert/%s"

def ShodanAlertIdInfo : String := "/shodan/alert/%s/info"

def ShodanAlertTriggers : String := "/shodan/alert/triggers"

def ShodanAlertTriggerAction : String := "/shodan/alert/%s/trigger/%s"

def ShodanAlertTriggerNotificationAction : String := "/shodan/alert/%s/trigger/%s/ignore/%s"

def ShodanData : String := "/shodan/data"

def ShodanDataset : String := "/shodan/data/%s"

def Org : String := "/org"

def OrgMember : String := "/org/member/%s"

def AccountProfile : String := "/account/profile"

def DnsResolve : String := "/dns/resolve"

def DnsReverse : String := "/dns/reverse"

def ToolsHTTPHeaders : String := "/tools/httpheaders"

def ToolsMyIP : String := "/tools/myip"

def ApiInfo : String := "/api-info"

def LabsHoneyscore : String := "/labs/honeyscore/%s"

/-- Modelled from the spec: `methods.go` resolves a domain-history route
(`routes.DnsDomain`) that the embedded routes file does not define; per the
spec it is a path template with one substitution slot. It is not part of
`routeTable`, which lists only the constants the routes file defines. -/
def DnsDomain : String := "/dns/domain/%s"

/-- Every constant of the `routes` package const block, in source order. -/
def routeTable : List String :=
  [ApiRoot, ApiExploits, ApiStream, Search, Count,
   ShodanHostView, ShodanHostCount, ShodanHostSearch, ShodanHostSearchTokens,
   ShodanPorts, ShodanServices, ShodanProtocols, ShodanScan, ShodanScans,
   ShodanScanView, ShodanScanInternet, ShodanQuery, ShodanQuerySearch,
   ShodanQueryTags, ShodanAlert, ShodanAlertInfo, ShodanAlertId,
   ShodanAlertIdInfo, ShodanAlertTriggers, ShodanAlertTriggerAction,
   ShodanAlertTriggerNotificationAction, ShodanData, ShodanDataset,
   Org, OrgMember, AccountProfile, DnsResolve, DnsReverse,
   ToolsHTTPHeaders, ToolsMyIP, ApiInfo, LabsHoneyscore]

/-- The origin base URLs provided by the route table: the constants that are
absolute URLs rather than path templates. -/
def baseURLs : List String := routeTable.filter (fun s => s.take 8 = "https://")

end routes

/-- Go `fmt.Sprintf` restricted to `%s` verbs: the template's pieces around
each `%s` interleaved with the arguments (every call site in `methods.go`
supplies exactly as many arguments as slots). -/
def sprintfS (template : String) (args : List String) : String :=
  match template.splitOn "%s" with
  | [] => ""
  | p :: ps => p ++ String.join ((args.zip ps).map (fun aq => aq.1 ++ aq.2))

/-- A `url.Values` / query-parameter mapping, as an association list. -/
abbrev Values := List (String × String)

/-- Go `url.Values.Set`: replace the key's value, or add the key. -/
def setParam (vs : Values) (k v : String) : Values :=
  if vs.any (fun p => p.1 = k) then
    vs.map (fun p => if p.1 = k then (p.1, v) else p)
  else
    vs ++ [(k, v)]

/-- Modelled from the spec: the two-origin routing of the dispatch layer
(`Client.get`/`Client.request` target the main API base, and
`Client.requestExploits` targets the exploits API base); the route table
additionally carries a stream base URL. The dispatch layer itself is not
among the embedded sources. -/
inductive Origin where
  | main
  | exploits
  | stream
deriving DecidableEq

/-- HTTP verbs used by the methods. -/
inductive Verb where
  | get
  | post
  | put
  | delete
deriving DecidableEq

/-- A request body: URL-encoded form parameters or marshalled JSON bytes. -/
inductive ReqBody where
  | form (params : Values)
  | json (s : String)
deriving DecidableEq

/-- One invocation of the dispatch layer, as assembled by a per-endpoint
method: origin, verb, resolved route, query parameters, optional body,
extra headers, and whether the decode destination was passed by reference
(`&result`) or by value (`result`). -/
structure DispatchCall where
  origin : Origin
  verb : Verb
  route : String
  query : Values
  body : Option ReqBody
  headers : Values
  destByRef : Bool
deriving DecidableEq

/-- An observable event of a method invocation: a print to standard output
or a call into the dispatch layer. -/
inductive Event where
  | print (s : String)
  | dispatch (c : DispatchCall)
deriving DecidableEq

/-- Modelled from the spec: the error taxonomy of the dispatch layer
(transport, API, decode), which is not among the embedded sources. -/
inductive DispatchError where
  | transport (cause : String)
  | api (status : Nat) (msg : String)
  | decode (cause : String)
deriving DecidableEq

/-- The Go errors produced by `methods.go`: the package-level sentinel
errors, the inline `errors.New` messages, a `json.Marshal` failure, and an
error surfaced by the dispatch layer. -/
inductive GoError where
  | errEmptyParams
  | errEmptyAlertID
  | errEmptyTriggerName
  | errEmptyService
  | errEmptyUsername
  | errBigRequest
  | errNew (msg : String)
  | errMarshal (cause : String)
  | errDispatch (e : DispatchError)
deriving DecidableEq

def hostnamesLenLimit : Nat := 3575

def ipsLenLimit : Nat := 3369

/-- The outcome of one per-endpoint method invocation: the trace of events
it produced, the value of the named return `result`, and the error. -/
structure MethodRun (α : Type) where
  events : List Event
  result : α
  err : Option GoError

/-- The dispatch calls a method issued, in order. -/
def MethodRun.calls {α : Type} (r : MethodRun α) : List DispatchCall :=
  r.events.filterMap (fun ev =>
    match ev with
    | .dispatch c => some c
    | .print _ => none)

/-- Modelled from the spec: the outcome the dispatch layer produces for one
call — either a classified dispatch error, or the value it decodes into the
decode destination. -/
def Transport (α : Type) : Type := DispatchCall → Option DispatchError × α

/-- Modelled from the spec: one invocation of the dispatch layer with a
by-reference decode destination. Exactly one exchange happens; on success
the decoded value is written into the destination once, on failure the
destination keeps its zero value and the dispatch error is returned. -/
def runDispatch {α : Type} [Inhabited α] (tr : Transport α) (c : DispatchCall) :
    MethodRun α :=
  match (tr c).1 with
  | some e => ⟨[.dispatch c], default, some (.errDispatch e)⟩
  | none => ⟨[.dispatch c], (tr c).2, none⟩

/-- A method returning before any dispatch: a local validation failure. -/
def failRun {α : Type} [Inhabited α] (e : GoError) : MethodRun α :=
  ⟨[], default, some e⟩

/-- A dispatch call issued through `Client.get`: GET against the main
origin with the given query, no body, no extra headers, destination by
reference. -/
def getCall (route : String) (query : Values) : DispatchCall :=
  ⟨.main, .get, route, query, none, [], true⟩

/-- A dispatch call issued through `Client.request` against the main
origin. -/
def mainCall (verb : Verb) (route : String) (query : Values)
    (body : Option ReqBody) (headers : Values) : DispatchCall :=
  ⟨.main, verb, route, query, body, headers, true⟩

/-- A dispatch call issued through `Client.requestExploits` against the
exploits origin. -/
def exploitsCall (verb : Verb) (route : String) (query : Values) : DispatchCall :=
  ⟨.exploits, verb, route, query, none, [], true⟩

namespace Client

/-- `Client.Host`: the external parameter encoder's output is taken as the
already-encoded `Values`. -/
def Host {α : Type} [Inhabited α] (tr : Transport α) (ip : String)
    (values : Values) : MethodRun α :=
  runDispatch tr (getCall (sprintfS routes.ShodanHostView [ip]) values)

/-- `Client.Count`. -/
def Count {α : Type} [Inhabited α] (tr : Transport α) (values : Values) :
    MethodRun α :=
  runDispatch tr (getCall routes.ShodanHostCount values)

/-- `Client.Search`. -/
def Search {α : Type} [Inhabited α] (tr : Transport α) (values : Values) :
    MethodRun α :=
  if values.isEmpty then failRun .errEmptyParams
  else runDispatch tr (getCall routes.ShodanHostSearch values)

/-- `Client.SearchTokens`. -/
def SearchTokens {α : Type} [Inhabited α] (tr : Transport α) (values : Values) :
    MethodRun α :=
  if values.isEmpty then failRun .errEmptyParams
  else runDispatch tr (getCall routes.ShodanHostSearchTokens values)

/-- `Client.Ports`. -/
def Ports {α : Type} [Inhabited α] (tr : Transport α) : MethodRun α :=
  runDispatch tr (getCall routes.ShodanPorts [])

/-- `Client.Protocols`. -/
def Protocols {α : Type} [Inhabited α] (tr : Transport α) : MethodRun α :=
  runDispatch tr (getCall routes.ShodanProtocols [])

/-- `Client.Services`. -/
def Services {α : Type} [Inhabited α] (tr : Transport α) : MethodRun α :=
  runDispatch tr (getCall routes.ShodanServices [])

/-- `Client.SubmitScan`: a nil slice and an empty slice both have Go
length 0, so both are the empty list here. -/
def SubmitScan {α : Type} [Inhabited α] (tr : Transport α) (ips : List String)
    (force : Bool) : MethodRun α :=
  if ips.isEmpty then failRun .errEmptyParams
  else
    let params := setParam [] "ips" (String.intercalate "," ips)
    let params := if force then setParam params "force" "true" else params
    runDispatch tr (mainCall .post routes.ShodanScan [] (some (.form params))
      [("Content-Type", "application/x-www-form-urlencoded")])

/-- `Client.ListScans`: `page` is a Go `uint`, modelled as `Nat`. -/
def ListScans {α : Type} [Inhabited α] (tr : Transport α) (page : Nat) :
    MethodRun α :=
  let params :=
    if page < 1 then setParam [] "page" "1"
    else setParam [] "page" (toString page)
  runDispatch tr (getCall routes.ShodanScans params)

/-- `Client.GetScan`. -/
def GetScan {α : Type} [Inhabited α] (tr : Transport α) (scanID : String) :
    MethodRun α :=
  if scanID = "" then failRun (.errNew "empty scanID")
  else
    runDispatch tr (mainCall .get (sprintfS routes.ShodanScanView [scanID])
      [] none [])

/-- `Client.ScanInternet`: the decode destination is passed by value
(`result`, not `&result`), so whatever the dispatch layer decodes is
written into a copy and the caller's `result` keeps its zero value. -/
def ScanInternet {α : Type} [Inhabited α] (tr : Transport α) (port : Nat)
    (protocol : String) : MethodRun α :=
  if protocol = "" then failRun (.errNew "empty protocol")
  else
    let params := setParam (setParam [] "port" (toString port)) "protocol" protocol
    let c : DispatchCall :=
      ⟨.main, .post, routes.ShodanScanInternet, [], some (.form params),
       [("Content-Type", "application/x-www-form-urlencoded")], false⟩
    let r := runDispatch tr c
    ⟨r.events, default, r.err⟩

/-- `Client.QueryList`. -/
def QueryList {α : Type} [Inhabited α] (tr : Transport α) (page : Nat)
    (sort order : String) : MethodRun α :=
  let params := if page > 0 then setParam [] "page" (toString page) else []
  let params := if sort ≠ "" then setParam params "sort" sort else params
  let params := if order ≠ "" then setParam params "order" order else params
  runDispatch tr (getCall routes.ShodanQuery params)

/-- `Client.QuerySearch`. -/
def QuerySearch {α : Type} [Inhabited α] (tr : Transport α) (query : String)
    (page : Nat) : MethodRun α :=
  if query = "" then failRun (.errNew "empty search query")
  else
    let params := setParam [] "query" query
    let params := if page > 0 then setParam params "page" (toString page) else params
    runDispatch tr (getCall routes.ShodanQuerySearch params)

/-- `Client.QueryTags`. -/
def QueryTags {α : Type} [Inhabited α] (tr : Transport α) (size : Nat) :
    MethodRun α :=
  let params := if size > 0 then setParam [] "size" (toString size) else []
  runDispatch tr (getCall routes.ShodanQueryTags params)

/-- `Client.Datasets`. -/
def Datasets {α : Type} [Inhabited α] (tr : Transport α) : MethodRun α :=
  runDispatch tr (getCall routes.ShodanData [])

/-- `Client.DatasetFiles`. -/
def DatasetFiles {α : Type} [Inhabited α] (tr : Transport α) (dataset : String) :
    MethodRun α :=
  if dataset = "" then failRun (.errNew "empty dataset id")
  else runDispatch tr (getCall (sprintfS routes.ShodanDataset [dataset]) [])

/-- `Client.Org`. -/
def Org {α : Type} [Inhabited α] (tr : Transport α) : MethodRun α :=
  runDispatch tr (getCall routes.Org [])

/-- `Client.AddOrgMember`. -/
def AddOrgMember {α : Type} [Inhabited α] (tr : Transport α) (username : String)
    (notify : Bool) : MethodRun α :=
  if username = "" then failRun .errEmptyUsername
  else
    let params := if notify then setParam [] "notify" "true" else []
    runDispatch tr (mainCall .put (sprintfS routes.OrgMember [username])
      params none [])

/-- `Client.DeleteOrgMember`. -/
def DeleteOrgMember {α : Type} [Inhabited α] (tr : Transport α)
    (username : String) : MethodRun α :=
  if username = "" then failRun .errEmptyUsername
  else
    runDispatch tr (mainCall .delete (sprintfS routes.OrgMember [username])
      [] none [])

/-- `Client.AccountProfile`. -/
def AccountProfile {α : Type} [Inhabited α] (tr : Transport α) : MethodRun α :=
  runDispatch tr (getCall routes.AccountProfile [])

/-- `Client.DnsResolve`: a nil slice and an empty slice both have Go
length 0, so both are the empty list here. -/
def DnsResolve {α : Type} [Inhabited α] (tr : Transport α)
    (hostnames : List String) : MethodRun α :=
  if hostnames.isEmpty then failRun .errEmptyParams
  else
    let joined := String.intercalate "," hostnames
    if goLen joined > hostnamesLenLimit then failRun .errBigRequest
    else runDispatch tr (getCall routes.DnsResolve (setParam [] "hostnames" joined))

/-- `Client.DnsReverse`. -/
def DnsReverse {α : Type} [Inhabited α] (tr : Transport α) (ips : List String) :
    MethodRun α :=
  if ips.isEmpty then failRun .errEmptyParams
  else
    let joined := String.intercalate "," ips
    if goLen joined > ipsLenLimit then failRun .errBigRequest
    else runDispatch tr (getCall routes.DnsReverse (setParam [] "ips" joined))

/-- `Client.DnsDomain`. -/
def DnsDomain {α : Type} [Inhabited α] (tr : Transport α) (domain : String) :
    MethodRun α :=
  if domain = "" then failRun (.errNew "domain is required")
  else runDispatch tr (getCall (sprintfS routes.DnsDomain [domain]) [])

/-- `Client.HttpHeaders`. -/
def HttpHeaders {α : Type} [Inhabited α] (tr : Transport α) : MethodRun α :=
  runDispatch tr (getCall routes.ToolsHTTPHeaders [])

/-- `Client.MyIP`. -/
def MyIP {α : Type} [Inhabited α] (tr : Transport α) : MethodRun α :=
  runDispatch tr (getCall routes.ToolsMyIP [])

/-- `Client.ApiInfo`. -/
def ApiInfo {α : Type} [Inhabited α] (tr : Transport α) : MethodRun α :=
  runDispatch tr (getCall routes.ApiInfo [])

/-- `Client.Honeyscore`. -/
def Honeyscore {α : Type} [Inhabited α] (tr : Transport α) (ip : String) :
    MethodRun α :=
  if ip = "" then failRun (.errNew "ip is required")
  else runDispatch tr (getCall (sprintfS routes.LabsHoneyscore [ip]) [])

/-- `Client.CreateAlert`: `json.Marshal` of the caller's alert is modelled
by its two results, the marshalled bytes `marshalBody` and the optional
error `marshalErr` (the alert model type is not among the embedded
sources). The source prints the marshalled bytes before checking the
marshal error and before dispatching. -/
def CreateAlert {α : Type} [Inhabited α] (tr : Transport α)
    (marshalBody : String) (marshalErr : Option String) : MethodRun α :=
  match marshalErr with
  | some e => ⟨[.print marshalBody], default, some (.errMarshal e)⟩
  | none =>
    let c := mainCall .post routes.ShodanAlert [] (some (.json marshalBody))
      [("Content-Type", "application/json")]
    let r := runDispatch tr c
    ⟨.print marshalBody :: r.events, r.result, r.err⟩

/-- `Client.AlertInfo`. -/
def AlertInfo {α : Type} [Inhabited α] (tr : Transport α) (alertID : String) :
    MethodRun α :=
  if alertID = "" then failRun .errEmptyAlertID
  else runDispatch tr (getCall (sprintfS routes.ShodanAlertIdInfo [alertID]) [])

/-- `Client.DeleteAlert`. -/
def DeleteAlert {α : Type} [Inhabited α] (tr : Transport α) (alertID : String) :
    MethodRun α :=
  if alertID = "" then failRun .errEmptyAlertID
  else
    runDispatch tr (mainCall .delete (sprintfS routes.ShodanAlertId [alertID])
      [] none [])

/-- `Client.ListAlerts`. -/
def ListAlerts {α : Type} [Inhabited α] (tr : Transport α) : MethodRun α :=
  runDispatch tr (getCall routes.ShodanAlertInfo [])

/-- `Client.ListTriggers`. -/
def ListTriggers {α : Type} [Inhabited α] (tr : Transport α) : MethodRun α :=
  runDispatch tr (getCall routes.ShodanAlertTriggers [])

/-- `Client.CreateAlertTrigger`. -/
def CreateAlertTrigger {α : Type} [Inhabited α] (tr : Transport α)
    (alertID triggerName : String) : MethodRun α :=
  if alertID = "" then failRun .errEmptyAlertID
  else if triggerName = "" then failRun .errEmptyTriggerName
  else
    runDispatch tr (mainCall .put
      (sprintfS routes.ShodanAlertTriggerAction [alertID, triggerName]) [] none [])

/-- `Client.DeleteAlertTrigger`. -/
def DeleteAlertTrigger {α : Type} [Inhabited α] (tr : Transport α)
    (alertID triggerName : String) : MethodRun α :=
  if alertID = "" then failRun .errEmptyAlertID
  else if triggerName = "" then failRun .errEmptyTriggerName
  else
    runDispatch tr (mainCall .delete
      (sprintfS routes.ShodanAlertTriggerAction [alertID, triggerName]) [] none [])

/-- `Client.CreateTriggerIgnore`. -/
def CreateTriggerIgnore {α : Type} [Inhabited α] (tr : Transport α)
    (alertID triggerName service : String) : MethodRun α :=
  if alertID = "" then failRun .errEmptyAlertID
  else if triggerName = "" then failRun .errEmptyTriggerName
  else if service = "" then failRun .errEmptyService
  else
    runDispatch tr (mainCall .put
      (sprintfS routes.ShodanAlertTriggerNotificationAction
        [alertID, triggerName, service]) [] none [])

/-- `Client.DeleteTriggerIgnore`. -/
def DeleteTriggerIgnore {α : Type} [Inhabited α] (tr : Transport α)
    (alertID triggerName service : String) : MethodRun α :=
  if alertID = "" then failRun .errEmptyAlertID
  else if triggerName = "" then failRun .errEmptyTriggerName
  else if service = "" then failRun .errEmptyService
  else
    runDispatch tr (mainCall .delete
      (sprintfS routes.ShodanAlertTriggerNotificationAction
        [alertID, triggerName, service]) [] none [])

/-- `Client.ExploitSearch`. -/
def ExploitSearch {α : Type} [Inhabited α] (tr : Transport α) (values : Values) :
    MethodRun α :=
  if values.isEmpty then failRun .errEmptyParams
  else runDispatch tr (exploitsCall .get routes.Search values)

/-- `Client.ExploitCount`. -/
def ExploitCount {α : Type} [Inhabited α] (tr : Transport α) (values : Values) :
    MethodRun α :=
  if values.isEmpty then failRun .errEmptyParams
  else runDispatch tr (exploitsCall .get routes.Count values)

end Client

/-- A transport oracle that always succeeds and decodes the given value. -/
def trPure {α : Type} (a : α) : Transport α := fun _ => (none, a)

/-- A dispatch call that does not target the stream origin. -/
def notStream (c : DispatchCall) : Bool :=
  match c.origin with
  | Origin.stream => false
  | _ => true

/-- A single hostname of 3576 bytes: one byte over `hostnamesLenLimit`. -/
def bigHost : String := String.mk (List.replicate 3576 'a')

/-- A single address string of 3370 bytes: one byte over `ipsLenLimit`. -/
def bigIP : String := String.mk (List.replicate 3370 'b')

theorem runDispatch_calls {α : Type} [Inhabited α] (tr : Transport α)
    (c : DispatchCall) : (runDispatch tr c).calls = [c] := by
  unfold runDispatch
  cases (tr c).1 <;> rfl

theorem failRun_calls {α : Type} [Inhabited α] (e : GoError) :
    (failRun (α := α) e).calls = [] := rfl

theorem runDispatch_events {α : Type} [Inhabited α] (tr : Transport α)
    (c : DispatchCall) : (runDispatch tr c).events = [Event.dispatch c] := by
  unfold runDispatch
  cases (tr c).1 <;> rfl

theorem runDispatch_err {α : Type} [Inhabited α] (tr : Transport α)
    (c : DispatchCall) :
    (runDispatch tr c).err = ((tr c).1).map GoError.errDispatch := by
  unfold runDispatch
  cases (tr c).1 <;> rfl

theorem runDispatch_err_not_big {α : Type} [Inhabited α] (tr : Transport α)
    (c : DispatchCall) : (runDispatch tr c).err ≠ some GoError.errBigRequest := by
  unfold runDispatch
  cases (tr c).1 <;> simp

theorem runDispatch_len {α : Type} [Inhabited α] (tr : Transport α)
    (c : DispatchCall) : (runDispatch tr c).calls.length = 1 := by
  rw [runDispatch_calls]
  rfl

theorem runDispatch_notStream {α : Type} [Inhabited α] (tr : Transport α)
    (c : DispatchCall) (h : notStream c = true) :
    (runDispatch tr c).calls.all notStream = true := by
  rw [runDispatch_calls]
  simp [h]

theorem calls_mk_events {α : Type} (r : MethodRun α) (x : α) (e : Option GoError) :
    (MethodRun.mk r.events x e).calls = r.calls := rfl

theorem calls_print_run {α : Type} (s : String) (r : MethodRun α) (x : α)
    (e : Option GoError) :
    (MethodRun.mk (Event.print s :: r.events) x e).calls = r.calls := rfl

theorem length_ite_nil {p : Prop} [Decidable p] (c0 : DispatchCall) :
    (if p then ([] : List DispatchCall) else [c0]).length = if p then 0 else 1 := by
  split <;> rfl

theorem all_ite_nil {p : Prop} [Decidable p] (c0 : DispatchCall)
    (h : notStream c0 = true) :
    (if p then ([] : List DispatchCall) else [c0]).all notStream = true := by
  split <;> simp [h]

theorem goLen_foldl_acc (l : List Char) (a : Nat) :
    l.foldl (fun n c => n + c.utf8Size) a = a + l.foldl (fun n c => n + c.utf8Size) 0 := by
  induction l generalizing a with
  | nil => simp
  | cons c cs ih =>
    simp only [List.foldl]
    rw [ih (a + c.utf8Size), ih (0 + c.utf8Size)]
    omega

theorem goLen_replicate (n : Nat) (c : Char) :
    goLen (String.mk (List.replicate n c)) = n * c.utf8Size := by
  induction n with
  | zero => simp [goLen]
  | succ m ih =>
    rw [List.replicate_succ]
    show (c :: List.replicate m c).foldl (fun n c => n + c.utf8Size) 0 = _
    simp only [List.foldl]
    rw [goLen_foldl_acc]
    have hm : (List.replicate m c).foldl (fun n c => n + c.utf8Size) 0 = m * c.utf8Size := ih
    rw [hm]
    ring

theorem intercalate_singleton (s : String) : String.intercalate "," [s] = s := by
  simp [String.intercalate, String.intercalate.go]

section CallLemmas

variable {α : Type} [Inhabited α] (tr : Transport α)

theorem Search_calls (values : Values) :
    (Client.Search tr values).calls =
      if values.isEmpty then [] else [getCall routes.ShodanHostSearch values] := by
  by_cases h : values.isEmpty <;>
    simp [Client.Search, h, runDispatch_calls, failRun_calls]

theorem SearchTokens_calls (values : Values) :
    (Client.SearchTokens tr values).calls =
      if values.isEmpty then [] else [getCall routes.ShodanHostSearchTokens values] := by
  by_cases h : values.isEmpty <;>
    simp [Client.SearchTokens, h, runDispatch_calls, failRun_calls]

theorem SubmitScan_calls (ips : List String) (force : Bool) :
    (Client.SubmitScan tr ips force).calls =
      if ips.isEmpty then []
      else [mainCall .post routes.ShodanScan []
        (some (.form (if force
          then setParam (setParam [] "ips" (String.intercalate "," ips)) "force" "true"
          else setParam [] "ips" (String.intercalate "," ips))))
        [("Content-Type", "application/x-www-form-urlencoded")]] := by
  by_cases h : ips.isEmpty <;>
    simp [Client.SubmitScan, h, runDispatch_calls, failRun_calls]

theorem GetScan_calls (scanID : String) :
    (Client.GetScan tr scanID).calls =
      if scanID = "" then []
      else [mainCall .get (sprintfS routes.ShodanScanView [scanID]) [] none []] := by
  by_cases h : scanID = "" <;>
    simp [Client.GetScan, h, runDispatch_calls, failRun_calls]

theorem ScanInternet_calls (port : Nat) (protocol : String) :
    (Client.ScanInternet tr port protocol).calls =
      if protocol = "" then []
      else [⟨.main, .post, routes.ShodanScanInternet, [],
        some (.form (setParam (setParam [] "port" (toString port)) "protocol" protocol)),
        [("Content-Type", "application/x-www-form-urlencoded")], false⟩] := by
  by_cases h : protocol = ""
  · simp [Client.ScanInternet, h, failRun_calls]
  · simp only [Client.ScanInternet, if_neg h]
    exact (calls_mk_events _ _ _).trans (runDispatch_calls tr _)

theorem QuerySearch_calls (query : String) (page : Nat) :
    (Client.QuerySearch tr query page).calls =
      if query = "" then []
      else [getCall routes.ShodanQuerySearch
        (if page > 0 then setParam (setParam [] "query" query) "page" (toString page)
         else setParam [] "query" query)] := by
  by_cases h : query = "" <;>
    simp [Client.QuerySearch, h, runDispatch_calls, failRun_calls]

theorem DatasetFiles_calls (dataset : String) :
    (Client.DatasetFiles tr dataset).calls =
      if dataset = "" then []
      else [getCall (sprintfS routes.ShodanDataset [dataset]) []] := by
  by_cases h : dataset = "" <;>
    simp [Client.DatasetFiles, h, runDispatch_calls, failRun_calls]

theorem AddOrgMember_calls (username : String) (notify : Bool) :
    (Client.AddOrgMember tr username notify).calls =
      if username = "" then []
      else [mainCall .put (sprintfS routes.OrgMember [username])
        (if notify then setParam [] "notify" "true" else []) none []] := by
  by_cases h : username = "" <;>
    simp [Client.AddOrgMember, h, runDispatch_calls, failRun_calls]

theorem DeleteOrgMember_calls (username : String) :
    (Client.DeleteOrgMember tr username).calls =
      if username = "" then []
      else [mainCall .delete (sprintfS routes.OrgMember [username]) [] none []] := by
  by_cases h : username = "" <;>
    simp [Client.DeleteOrgMember, h, runDispatch_calls, failRun_calls]

theorem DnsResolve_calls (hostnames : List String) :
    (Client.DnsResolve tr hostnames).calls =
      if hostnames.isEmpty ∨ hostnamesLenLimit < goLen (String.intercalate "," hostnames)
      then []
      else [getCall routes.DnsResolve
        (setParam [] "hostnames" (String.intercalate "," hostnames))] := by
  by_cases h1 : hostnames.isEmpty <;>
    by_cases h2 : hostnamesLenLimit < goLen (String.intercalate "," hostnames) <;>
      simp [Client.DnsResolve, h1, h2, runDispatch_calls, failRun_calls]

theorem DnsReverse_calls (ips : List String) :
    (Client.DnsReverse tr ips).calls =
      if ips.isEmpty ∨ ipsLenLimit < goLen (String.intercalate "," ips)
      then []
      else [getCall routes.DnsReverse
        (setParam [] "ips" (String.intercalate "," ips))] := by
  by_cases h1 : ips.isEmpty <;>
    by_cases h2 : ipsLenLimit < goLen (String.intercalate "," ips) <;>
      simp [Client.DnsReverse, h1, h2, runDispatch_calls, failRun_calls]

theorem DnsDomain_calls (domain : String) :
    (Client.DnsDomain tr domain).calls =
      if domain = "" then []
      else [getCall (sprintfS routes.DnsDomain [domain]) []] := by
  by_cases h : domain = "" <;>
    simp [Client.DnsDomain, h, runDispatch_calls, failRun_calls]

theorem Honeyscore_calls (ip : String) :
    (Client.Honeyscore tr ip).calls =
      if ip = "" then []
      else [getCall (sprintfS routes.LabsHoneyscore [ip]) []] := by
  by_cases h : ip = "" <;>
    simp [Client.Honeyscore, h, runDispatch_calls, failRun_calls]

theorem CreateAlert_calls (b : String) (mErr : Option String) :
    (Client.CreateAlert tr b mErr).calls =
      if mErr.isSome then []
      else [mainCall .post routes.ShodanAlert [] (some (.json b))
        [("Content-Type", "application/json")]] := by
  cases mErr with
  | some e => rfl
  | none => exact (calls_print_run b (runDispatch tr _) _ _).trans (runDispatch_calls tr _)

theorem AlertInfo_calls (alertID : String) :
    (Client.AlertInfo tr alertID).calls =
      if alertID = "" then []
      else [getCall (sprintfS routes.ShodanAlertIdInfo [alertID]) []] := by
  by_cases h : alertID = "" <;>
    simp [Client.AlertInfo, h, runDispatch_calls, failRun_calls]

theorem DeleteAlert_calls (alertID : String) :
    (Client.DeleteAlert tr alertID).calls =
      if alertID = "" then []
      else [mainCall .delete (sprintfS routes.ShodanAlertId [alertID]) [] none []] := by
  by_cases h : alertID = "" <;>
    simp [Client.DeleteAlert, h, runDispatch_calls, failRun_calls]

theorem CreateAlertTrigger_calls (alertID triggerName : String) :
    (Client.CreateAlertTrigger tr alertID triggerName).calls =
      if alertID = "" ∨ triggerName = "" then []
      else [mainCall .put
        (sprintfS routes.ShodanAlertTriggerAction [alertID, triggerName]) [] none []] := by
  by_cases h1 : alertID = "" <;> by_cases h2 : triggerName = "" <;>
    simp [Client.CreateAlertTrigger, h1, h2, runDispatch_calls, failRun_calls]

theorem DeleteAlertTrigger_calls (alertID triggerName : String) :
    (Client.DeleteAlertTrigger tr alertID triggerName).calls =
      if alertID = "" ∨ triggerName = "" then []
      else [mainCall .delete
        (sprintfS routes.ShodanAlertTriggerAction [alertID, triggerName]) [] none []] := by
  by_cases h1 : alertID = "" <;> by_cases h2 : triggerName = "" <;>
    simp [Client.DeleteAlertTrigger, h1, h2, runDispatch_calls, failRun_calls]

theorem CreateTriggerIgnore_calls (alertID triggerName service : String) :
    (Client.CreateTriggerIgnore tr alertID triggerName service).calls =
      if alertID = "" ∨ triggerName = "" ∨ service = "" then []
      else [mainCall .put
        (sprintfS routes.ShodanAlertTriggerNotificationAction
          [alertID, triggerName, service]) [] none []] := by
  by_cases h1 : alertID = "" <;> by_cases h2 : triggerName = "" <;>
    by_cases h3 : service = "" <;>
      simp [Client.CreateTriggerIgnore, h1, h2, h3, runDispatch_calls, failRun_calls]

theorem DeleteTriggerIgnore_calls (alertID triggerName service : String) :
    (Client.DeleteTriggerIgnore tr alertID triggerName service).calls =
      if alertID = "" ∨ triggerName = "" ∨ service = "" then []
      else [mainCall .delete
        (sprintfS routes.ShodanAlertTriggerNotificationAction
          [alertID, triggerName, service]) [] none []] := by
  by_cases h1 : alertID = "" <;> by_cases h2 : triggerName = "" <;>
    by_cases h3 : service = "" <;>
      simp [Client.DeleteTriggerIgnore, h1, h2, h3, runDispatch_calls, failRun_calls]

theorem ExploitSearch_calls (values : Values) :
    (Client.ExploitSearch tr values).calls =
      if values.isEmpty then [] else [exploitsCall .get routes.Search values] := by
  by_cases h : values.isEmpty <;>
    simp [Client.ExploitSearch, h, runDispatch_calls, failRun_calls]

theorem ExploitCount_calls (values : Values) :
    (Client.ExploitCount tr values).calls =
      if values.isEmpty then [] else [exploitsCall .get routes.Count values] := by
  by_cases h : values.isEmpty <;>
    simp [Client.ExploitCount, h, runDispatch_calls, failRun_calls]

end CallLemmas

/-- C1: for every non-empty hostname list, `DnsResolve` fails locally with
the oversized-request validation error (`errBigRequest`) and issues no
dispatch call exactly when the comma-joined hostname string is longer than
`hostnamesLenLimit` = 3575 (Go string length, i.e. UTF-8 bytes); when the
joined length is at most the limit, validation passes and exactly one
dispatch is issued, regardless of how many hostnames the list contains. -/
theorem DnsResolve_oversizeValidation {α : Type} [Inhabited α] (tr : Transport α)
    (hostnames : List String) (h : hostnames ≠ []) :
    (hostnamesLenLimit < goLen (String.intercalate "," hostnames) →
      (Client.DnsResolve tr hostnames).err = some GoError.errBigRequest ∧
      (Client.DnsResolve tr hostnames).calls = []) ∧
    (goLen (String.intercalate "," hostnames) ≤ hostnamesLenLimit →
      (Client.DnsResolve tr hostnames).calls.length = 1 ∧
      (Client.DnsResolve tr hostnames).err ≠ some GoError.errBigRequest) ∧
    hostnamesLenLimit = 3575 := by
  have hne : hostnames.isEmpty = false := by
    cases hostnames with
    | nil => cases h rfl
    | cons a l => rfl
  refine ⟨fun hlim => ?_, fun hlim => ?_, rfl⟩
  · constructor <;>
      simp [Client.DnsResolve, hne, hlim, failRun, MethodRun.calls]
  · have hn : ¬ hostnamesLenLimit < goLen (String.intercalate "," hostnames) :=
      Nat.not_lt.mpr hlim
    have heq : Client.DnsResolve tr hostnames =
        runDispatch tr (getCall routes.DnsResolve
          (setParam [] "hostnames" (String.intercalate "," hostnames))) := by
      simp [Client.DnsResolve, hne, hn]
    rw [heq]
    exact ⟨runDispatch_len tr _, runDispatch_err_not_big tr _⟩

/-- C1 witness: a one-hostname list joined to 1 byte dispatches once;
a one-hostname list joined to 3576 bytes fails locally with the
oversized-request error and no dispatch. -/
theorem DnsResolve_oversizeValidation_witness :
    (["a"] : List String) ≠ [] ∧
    goLen (String.intercalate "," ["a"]) ≤ hostnamesLenLimit ∧
    (Client.DnsResolve (trPure (0 : Nat)) ["a"]).calls.length = 1 ∧
    ([bigHost] : List String) ≠ [] ∧
    hostnamesLenLimit < goLen (String.intercalate "," [bigHost]) ∧
    (Client.DnsResolve (trPure (0 : Nat)) [bigHost]).err = some GoError.errBigRequest ∧
    (Client.DnsResolve (trPure (0 : Nat)) [bigHost]).calls = [] := by
  have hsmall : goLen (String.intercalate "," ["a"]) ≤ hostnamesLenLimit := by decide
  have hbig : hostnamesLenLimit < goLen (String.intercalate "," [bigHost]) := by
    rw [intercalate_singleton]
    show hostnamesLenLimit < goLen (String.mk (List.replicate 3576 'a'))
    rw [goLen_replicate]
    decide
  have h1 := (DnsResolve_oversizeValidation (trPure (0 : Nat)) ["a"]
    (by decide)).2.1 hsmall
  have h2 := (DnsResolve_oversizeValidation (trPure (0 : Nat)) [bigHost]
    (List.cons_ne_nil _ _)).1 hbig
  exact ⟨by decide, hsmall, h1.1, List.cons_ne_nil _ _, hbig, h2.1, h2.2⟩

/-- C2: for every non-empty IP list, `DnsReverse` fails locally with the
oversized-request validation error and issues no dispatch call exactly when
the comma-joined IP string is longer than `ipsLenLimit` = 3369 (Go string
length, i.e. UTF-8 bytes); at or below the limit, validation passes and
exactly one dispatch is issued. The IP ceiling 3369 is distinct from the
hostname ceiling 3575 used by `DnsResolve`. -/
theorem DnsReverse_oversizeValidation {α : Type} [Inhabited α] (tr : Transport α)
    (ips : List String) (h : ips ≠ []) :
    (ipsLenLimit < goLen (String.intercalate "," ips) →
      (Client.DnsReverse tr ips).err = some GoError.errBigRequest ∧
      (Client.DnsReverse tr ips).calls = []) ∧
    (goLen (String.intercalate "," ips) ≤ ipsLenLimit →
      (Client.DnsReverse tr ips).calls.length = 1 ∧
      (Client.DnsReverse tr ips).err ≠ some GoError.errBigRequest) ∧
    ipsLenLimit = 3369 ∧ hostnamesLenLimit = 3575 ∧ ipsLenLimit ≠ hostnamesLenLimit := by
  have hne : ips.isEmpty = false := by
    cases ips with
    | nil => cases h rfl
    | cons a l => rfl
  refine ⟨fun hlim => ?_, fun hlim => ?_, rfl, rfl, by decide⟩
  · constructor <;>
      simp [Client.DnsReverse, hne, hlim, failRun, MethodRun.calls]
  · have hn : ¬ ipsLenLimit < goLen (String.intercalate "," ips) :=
      Nat.not_lt.mpr hlim
    have heq : Client.DnsReverse tr ips =
        runDispatch tr (getCall routes.DnsReverse
          (setParam [] "ips" (String.intercalate "," ips))) := by
      simp [Client.DnsReverse, hne, hn]
    rw [heq]
    exact ⟨runDispatch_len tr _, runDispatch_err_not_big tr _⟩

/-- C2 witness: a one-address list joined to 7 bytes dispatches once;
a one-address list joined to 3370 bytes fails locally with the
oversized-request error and no dispatch. -/
theorem DnsReverse_oversizeValidation_witness :
    (["1.2.3.4"] : List String) ≠ [] ∧
    goLen (String.intercalate "," ["1.2.3.4"]) ≤ ipsLenLimit ∧
    (Client.DnsReverse (trPure (0 : Nat)) ["1.2.3.4"]).calls.length = 1 ∧
    ([bigIP] : List String) ≠ [] ∧
    ipsLenLimit < goLen (String.intercalate "," [bigIP]) ∧
    (Client.DnsReverse (trPure (0 : Nat)) [bigIP]).err = some GoError.errBigRequest ∧
    (Client.DnsReverse (trPure (0 : Nat)) [bigIP]).calls = [] := by
  have hsmall : goLen (String.intercalate "," ["1.2.3.4"]) ≤ ipsLenLimit := by decide
  have hbig : ipsLenLimit < goLen (String.intercalate "," [bigIP]) := by
    rw [intercalate_singleton]
    show ipsLenLimit < goLen (String.mk (List.replicate 3370 'b'))
    rw [goLen_replicate]
    decide
  have h1 := (DnsReverse_oversizeValidation (trPure (0 : Nat)) ["1.2.3.4"]
    (by decide)).2.1 hsmall
  have h2 := (DnsReverse_oversizeValidation (trPure (0 : Nat)) [bigIP]
    (List.cons_ne_nil _ _)).1 hbig
  exact ⟨by decide, hsmall, h1.1, List.cons_ne_nil _ _, hbig, h2.1, h2.2⟩

/-- C3: `ScanInternet` passes its `result` variable by value (not by
reference) as the decode destination — every dispatch call it issues
records `destByRef = false` — so for every transport outcome, including
every successful exchange, the value returned to the caller is never
populated by the response decode and always equals the zero value of the
result type. -/
theorem ScanInternet_resultNeverPopulated {α : Type} [Inhabited α]
    (tr : Transport α) (port : Nat) (protocol : String) :
    (Client.ScanInternet tr port protocol).result = (default : α) ∧
    ∀ c ∈ (Client.ScanInternet tr port protocol).calls, c.destByRef = false := by
  constructor
  · by_cases h : protocol = ""
    · simp [Client.ScanInternet, h, failRun]
    · simp only [Client.ScanInternet, if_neg h]
  · intro c hc
    rw [ScanInternet_calls] at hc
    split at hc
    · cases hc
    · rw [List.mem_singleton] at hc
      subst hc
      rfl

/-- C5: `SubmitScan` with a nil-or-empty IP list (Go length 0, the empty
list here) fails locally with the missing-parameter error `errEmptyParams`
and issues no dispatch call, for either value of `force`. -/
theorem SubmitScan_emptyValidation {α : Type} [Inhabited α] (tr : Transport α)
    (force : Bool) :
    (Client.SubmitScan tr [] force).err = some GoError.errEmptyParams ∧
    (Client.SubmitScan tr [] force).calls = [] :=
  ⟨rfl, rfl⟩

/-- C6: `Search`, `SearchTokens`, `ExploitSearch` and `ExploitCount` with an
empty encoded parameter mapping return the empty-parameters validation
error immediately and perform no dispatch call. -/
theorem emptyParams_noDispatch {α : Type} [Inhabited α] (tr : Transport α) :
    (Client.Search tr []).err = some GoError.errEmptyParams ∧
    (Client.Search tr []).calls = [] ∧
    (Client.SearchTokens tr []).err = some GoError.errEmptyParams ∧
    (Client.SearchTokens tr []).calls = [] ∧
    (Client.ExploitSearch tr []).err = some GoError.errEmptyParams ∧
    (Client.ExploitSearch tr []).calls = [] ∧
    (Client.ExploitCount tr []).err = some GoError.errEmptyParams ∧
    (Client.ExploitCount tr []).calls = [] :=
  ⟨rfl, rfl, rfl, rfl, rfl, rfl, rfl, rfl⟩

/-- C7: `CreateTriggerIgnore` and `DeleteTriggerIgnore` check their required
arguments in the fixed order alertID, triggerName, service, so with more
than one empty argument the returned error is the one for the first empty
argument in that order, and no dispatch occurs: an empty alertID wins over
any other empty arguments, and with a non-empty alertID an empty
triggerName wins over an empty service. -/
theorem triggerIgnore_firstError {α : Type} [Inhabited α] (tr : Transport α)
    (a t s : String) (ha : a ≠ "") :
    ((Client.CreateTriggerIgnore tr "" t s).err = some GoError.errEmptyAlertID ∧
      (Client.CreateTriggerIgnore tr "" t s).calls = []) ∧
    ((Client.DeleteTriggerIgnore tr "" t s).err = some GoError.errEmptyAlertID ∧
      (Client.DeleteTriggerIgnore tr "" t s).calls = []) ∧
    ((Client.CreateTriggerIgnore tr a "" "").err = some GoError.errEmptyTriggerName ∧
      (Client.CreateTriggerIgnore tr a "" "").calls = []) ∧
    ((Client.DeleteTriggerIgnore tr a "" "").err = some GoError.errEmptyTriggerName ∧
      (Client.DeleteTriggerIgnore tr a "" "").calls = []) := by
  refine ⟨⟨rfl, rfl⟩, ⟨rfl, rfl⟩, ?_, ?_⟩ <;>
    constructor <;>
      simp [Client.CreateTriggerIgnore, Client.DeleteTriggerIgnore, ha,
        failRun, MethodRun.calls]

/-- C7 witness: with alertID = "x" and both triggerName and service empty,
the trigger-name error is returned (service is checked later). -/
theorem triggerIgnore_firstError_witness :
    ("x" : String) ≠ "" ∧
    (Client.CreateTriggerIgnore (trPure (0 : Nat)) "x" "" "").err =
      some GoError.errEmptyTriggerName ∧
    (Client.DeleteTriggerIgnore (trPure (0 : Nat)) "x" "" "").err =
      some GoError.errEmptyTriggerName := by
  have h := triggerIgnore_firstError (trPure (0 : Nat)) "x" "" "" (by decide)
  exact ⟨by decide, h.2.2.1.1, h.2.2.2.1⟩

/-- C9: `CreateAlert` prints the JSON-encoded alert body to standard output
as its first event, before the marshal error is checked and before any
dispatch: on a successful marshal the trace is exactly the print followed
by the dispatch, and on a marshal failure the print still happens, no
dispatch is issued, and the marshal error is returned. -/
theorem CreateAlert_printsBeforeDispatch {α : Type} [Inhabited α]
    (tr : Transport α) (b e : String) (mErr : Option String) :
    (Client.CreateAlert tr b mErr).events.head? = some (Event.print b) ∧
    (Client.CreateAlert tr b none).events =
      [Event.print b,
       Event.dispatch (mainCall .post routes.ShodanAlert [] (some (.json b))
         [("Content-Type", "application/json")])] ∧
    (Client.CreateAlert tr b (some e)).events = [Event.print b] ∧
    (Client.CreateAlert tr b (some e)).calls = [] ∧
    (Client.CreateAlert tr b (some e)).err = some (GoError.errMarshal e) := by
  refine ⟨?_, ?_, rfl, rfl, rfl⟩
  · cases mErr <;> rfl
  · show Event.print b :: (runDispatch tr _).events = _
    rw [runDispatch_events]

/-- C10: `ListScans` always dispatches with a "page" query parameter: the
parameter value is "1" when the page argument is 0 (silently normalizing
page 0 to page 1 rather than rejecting it), and the decimal representation
of the page argument otherwise. -/
theorem ListScans_pageNormalized {α : Type} [Inhabited α] (tr : Transport α)
    (page : Nat) :
    (Client.ListScans tr page).calls =
      [getCall routes.ShodanScans
        [("page", if page = 0 then "1" else toString page)]] := by
  cases page <;> exact runDispatch_calls tr _

/-- C4 counterexample: the route table provides three origin base URLs, not
two — the stream base `ApiStream` is a third absolute URL among the
table's constants. -/
theorem baseURLs_notTwo :
    routes.baseURLs = [routes.ApiRoot, routes.ApiExploits, routes.ApiStream] ∧
    routes.baseURLs.length = 3 ∧ routes.baseURLs.length ≠ 2 := by decide

/-- C4 (amended): the route table provides exactly three origin base URLs —
the main API base, the exploits API base and a stream API base — and every
dispatch issued by a per-endpoint method selects the main or the exploits
origin, never the stream origin. -/
theorem routeTable_threeOrigins {α : Type} [Inhabited α] (tr : Transport α)
    (values : Values)
    (ip scanID protocol domain dataset username query alertID triggerName
      service b sort order : String)
    (ips hostnames : List String) (page size port : Nat) (force notify : Bool)
    (mErr : Option String) :
    routes.baseURLs = [routes.ApiRoot, routes.ApiExploits, routes.ApiStream] ∧
    (∀ c : DispatchCall, notStream c = true ↔
      (c.origin = Origin.main ∨ c.origin = Origin.exploits)) ∧
    (Client.Host tr ip values).calls.all notStream = true ∧
    (Client.Count tr values).calls.all notStream = true ∧
    (Client.Search tr values).calls.all notStream = true ∧
    (Client.SearchTokens tr values).calls.all notStream = true ∧
    (Client.Ports tr).calls.all notStream = true ∧
    (Client.Protocols tr).calls.all notStream = true ∧
    (Client.Services tr).calls.all notStream = true ∧
    (Client.SubmitScan tr ips force).calls.all notStream = true ∧
    (Client.ListScans tr page).calls.all notStream = true ∧
    (Client.GetScan tr scanID).calls.all notStream = true ∧
    (Client.ScanInternet tr port protocol).calls.all notStream = true ∧
    (Client.QueryList tr page sort order).calls.all notStream = true ∧
    (Client.QuerySearch tr query page).calls.all notStream = true ∧
    (Client.QueryTags tr size).calls.all notStream = true ∧
    (Client.Datasets tr).calls.all notStream = true ∧
    (Client.DatasetFiles tr dataset).calls.all notStream = true ∧
    (Client.Org tr).calls.all notStream = true ∧
    (Client.AddOrgMember tr username notify).calls.all notStream = true ∧
    (Client.DeleteOrgMember tr username).calls.all notStream = true ∧
    (Client.AccountProfile tr).calls.all notStream = true ∧
    (Client.DnsResolve tr hostnames).calls.all notStream = true ∧
    (Client.DnsReverse tr ips).calls.all notStream = true ∧
    (Client.DnsDomain tr domain).calls.all notStream = true ∧
    (Client.HttpHeaders tr).calls.all notStream = true ∧
    (Client.MyIP tr).calls.all notStream = true ∧
    (Client.ApiInfo tr).calls.all notStream = true ∧
    (Client.Honeyscore tr ip).calls.all notStream = true ∧
    (Client.CreateAlert tr b mErr).calls.all notStream = true ∧
    (Client.AlertInfo tr alertID).calls.all notStream = true ∧
    (Client.DeleteAlert tr alertID).calls.all notStream = true ∧
    (Client.ListAlerts tr).calls.all notStream = true ∧
    (Client.ListTriggers tr).calls.all notStream = true ∧
    (Client.CreateAlertTrigger tr alertID triggerName).calls.all notStream = true ∧
    (Client.DeleteAlertTrigger tr alertID triggerName).calls.all notStream = true ∧
    (Client.CreateTriggerIgnore tr alertID triggerName service).calls.all notStream = true ∧
    (Client.DeleteTriggerIgnore tr alertID triggerName service).calls.all notStream = true ∧
    (Client.ExploitSearch tr values).calls.all notStream = true ∧
    (Client.ExploitCount tr values).calls.all notStream = true :=
  ⟨by decide,
   by
     intro c
     rcases c with ⟨o, v, r, q, bd, hd, db⟩
     cases o <;> simp [notStream],
   runDispatch_notStream tr _ rfl,
   runDispatch_notStream tr _ rfl,
   by rw [Search_calls]; exact all_ite_nil _ rfl,
   by rw [SearchTokens_calls]; exact all_ite_nil _ rfl,
   runDispatch_notStream tr _ rfl,
   runDispatch_notStream tr _ rfl,
   runDispatch_notStream tr _ rfl,
   by rw [SubmitScan_calls]; exact all_ite_nil _ rfl,
   runDispatch_notStream tr _ rfl,
   by rw [GetScan_calls]; exact all_ite_nil _ rfl,
   by rw [ScanInternet_calls]; exact all_ite_nil _ rfl,
   runDispatch_notStream tr _ rfl,
   by rw [QuerySearch_calls]; exact all_ite_nil _ rfl,
   runDispatch_notStream tr _ rfl,
   runDispatch_notStream tr _ rfl,
   by rw [DatasetFiles_calls]; exact all_ite_nil _ rfl,
   runDispatch_notStream tr _ rfl,
   by rw [AddOrgMember_calls]; exact all_ite_nil _ rfl,
   by rw [DeleteOrgMember_calls]; exact all_ite_nil _ rfl,
   runDispatch_notStream tr _ rfl,
   by rw [DnsResolve_calls]; exact all_ite_nil _ rfl,
   by rw [DnsReverse_calls]; exact all_ite_nil _ rfl,
   by rw [DnsDomain_calls]; exact all_ite_nil _ rfl,
   runDispatch_notStream tr _ rfl,
   runDispatch_notStream tr _ rfl,
   runDispatch_notStream tr _ rfl,
   by rw [Honeyscore_calls]; exact all_ite_nil _ rfl,
   by rw [CreateAlert_calls]; exact all_ite_nil _ rfl,
   by rw [AlertInfo_calls]; exact all_ite_nil _ rfl,
   by rw [DeleteAlert_calls]; exact all_ite_nil _ rfl,
   runDispatch_notStream tr _ rfl,
   runDispatch_notStream tr _ rfl,
   by rw [CreateAlertTrigger_calls]; exact all_ite_nil _ rfl,
   by rw [DeleteAlertTrigger_calls]; exact all_ite_nil _ rfl,
   by rw [CreateTriggerIgnore_calls]; exact all_ite_nil _ rfl,
   by rw [DeleteTriggerIgnore_calls]; exact all_ite_nil _ rfl,
   by rw [ExploitSearch_calls]; exact all_ite_nil _ rfl,
   by rw [ExploitCount_calls]; exact all_ite_nil _ rfl⟩

/-- C8: every per-endpoint method performs at most one dispatch call per
invocation, and exactly one when its local validation passes: the dispatch
count is 0 precisely on the local-validation failure inputs and 1
otherwise, for every method of the client. -/
theorem methods_singleDispatch {α : Type} [Inhabited α] (tr : Transport α)
    (values : Values)
    (ip scanID protocol domain dataset username query alertID triggerName
      service b sort order : String)
    (ips hostnames : List String) (page size port : Nat) (force notify : Bool)
    (mErr : Option String) :
    (Client.Host tr ip values).calls.length = 1 ∧
    (Client.Count tr values).calls.length = 1 ∧
    (Client.Search tr values).calls.length = (if values.isEmpty then 0 else 1) ∧
    (Client.SearchTokens tr values).calls.length = (if values.isEmpty then 0 else 1) ∧
    (Client.Ports tr).calls.length = 1 ∧
    (Client.Protocols tr).calls.length = 1 ∧
    (Client.Services tr).calls.length = 1 ∧
    (Client.SubmitScan tr ips force).calls.length = (if ips.isEmpty then 0 else 1) ∧
    (Client.ListScans tr page).calls.length = 1 ∧
    (Client.GetScan tr scanID).calls.length = (if scanID = "" then 0 else 1) ∧
    (Client.ScanInternet tr port protocol).calls.length =
      (if protocol = "" then 0 else 1) ∧
    (Client.QueryList tr page sort order).calls.length = 1 ∧
    (Client.QuerySearch tr query page).calls.length = (if query = "" then 0 else 1) ∧
    (Client.QueryTags tr size).calls.length = 1 ∧
    (Client.Datasets tr).calls.length = 1 ∧
    (Client.DatasetFiles tr dataset).calls.length = (if dataset = "" then 0 else 1) ∧
    (Client.Org tr).calls.length = 1 ∧
    (Client.AddOrgMember tr username notify).calls.length =
      (if username = "" then 0 else 1) ∧
    (Client.DeleteOrgMember tr username).calls.length =
      (if username = "" then 0 else 1) ∧
    (Client.AccountProfile tr).calls.length = 1 ∧
    (Client.DnsResolve tr hostnames).calls.length =
      (if hostnames.isEmpty ∨ hostnamesLenLimit < goLen (String.intercalate "," hostnames)
       then 0 else 1) ∧
    (Client.DnsReverse tr ips).calls.length =
      (if ips.isEmpty ∨ ipsLenLimit < goLen (String.intercalate "," ips)
       then 0 else 1) ∧
    (Client.DnsDomain tr domain).calls.length = (if domain = "" then 0 else 1) ∧
    (Client.HttpHeaders tr).calls.length = 1 ∧
    (Client.MyIP tr).calls.length = 1 ∧
    (Client.ApiInfo tr).calls.length = 1 ∧
    (Client.Honeyscore tr ip).calls.length = (if ip = "" then 0 else 1) ∧
    (Client.CreateAlert tr b mErr).calls.length = (if mErr.isSome then 0 else 1) ∧
    (Client.AlertInfo tr alertID).calls.length = (if alertID = "" then 0 else 1) ∧
    (Client.DeleteAlert tr alertID).calls.length = (if alertID = "" then 0 else 1) ∧
    (Client.ListAlerts tr).calls.length = 1 ∧
    (Client.ListTriggers tr).calls.length = 1 ∧
    (Client.CreateAlertTrigger tr alertID triggerName).calls.length =
      (if alertID = "" ∨ triggerName = "" then 0 else 1) ∧
    (Client.DeleteAlertTrigger tr alertID triggerName).calls.length =
      (if alertID = "" ∨ triggerName = "" then 0 else 1) ∧
    (Client.CreateTriggerIgnore tr alertID triggerName service).calls.length =
      (if alertID = "" ∨ triggerName = "" ∨ service = "" then 0 else 1) ∧
    (Client.DeleteTriggerIgnore tr alertID triggerName service).calls.length =
      (if alertID = "" ∨ triggerName = "" ∨ service = "" then 0 else 1) ∧
    (Client.ExploitSearch tr values).calls.length = (if values.isEmpty then 0 else 1) ∧
    (Client.ExploitCount tr values).calls.length = (if values.isEmpty then 0 else 1) :=
  ⟨runDispatch_len tr _,
   runDispatch_len tr _,
   by rw [Search_calls]; exact length_ite_nil _,
   by rw [SearchTokens_calls]; exact length_ite_nil _,
   runDispatch_len tr _,
   runDispatch_len tr _,
   runDispatch_len tr _,
   by rw [SubmitScan_calls]; exact length_ite_nil _,
   runDispatch_len tr _,
   by rw [GetScan_calls]; exact length_ite_nil _,
   by rw [ScanInternet_calls]; exact length_ite_nil _,
   runDispatch_len tr _,
   by rw [QuerySearch_calls]; exact length_ite_nil _,
   runDispatch_len tr _,
   runDispatch_len tr _,
   by rw [DatasetFiles_calls]; exact length_ite_nil _,
   runDispatch_len tr _,
   by rw [AddOrgMember_calls]; exact length_ite_nil _,
   by rw [DeleteOrgMember_calls]; exact length_ite_nil _,
   runDispatch_len tr _,
   by rw [DnsResolve_calls]; exact length_ite_nil _,
   by rw [DnsReverse_calls]; exact length_ite_nil _,
   by rw [DnsDomain_calls]; exact length_ite_nil _,
   runDispatch_len tr _,
   runDispatch_len tr _,
   runDispatch_len tr _,
   by rw [Honeyscore_calls]; exact length_ite_nil _,
   by rw [CreateAlert_calls]; exact length_ite_nil _,
   by rw [AlertInfo_calls]; exact length_ite_nil _,
   by rw [DeleteAlert_calls]; exact length_ite_nil _,
   runDispatch_len tr _,
   runDispatch_len tr _,
   by rw [CreateAlertTrigger_calls]; exact length_ite_nil _,
   by rw [DeleteAlertTrigger_calls]; exact length_ite_nil _,
   by rw [CreateTriggerIgnore_calls]; exact length_ite_nil _,
   by rw [DeleteTriggerIgnore_calls]; exact length_ite_nil _,
   by rw [ExploitSearch_calls]; exact length_ite_nil _,
   by rw [ExploitCount_calls]; exact length_ite_nil _⟩
